import Mathlib

/-
  Verification of pyptp2 (ptp2/camera.py): a shallow embedding of the
  PTP transaction engine, session layer and CHDK extension layer, with
  theorems checking the specification's claims against the code.

  Transport channels are modelled as explicit lists: the bulk-in channel
  as a list of already-framed containers (one per chunked receive), the
  interrupt channel as a list of event containers, and the byte-level
  chunked receive (recv_ptp_message) over a list of pending bytes.
-/

namespace Ptp2

/- Modelled from the spec: the container-kind discriminator values come
from `typedefs.py`, which is not under src/; the spec (§3, §4.1) declares
the four kinds Command, Data, Response, Event as a u16 enumeration.
The concrete values are the standard PTP ones; the code only branches on
equality with these names, so only their distinctness matters. -/
namespace PTP_CONTAINER_TYPE

def COMMAND : Nat := 1

def DATA : Nat := 2

def RESPONSE : Nat := 3

def EVENT : Nat := 4

end PTP_CONTAINER_TYPE

/- Modelled from the spec: PTP operation / response / event code tables
(`ptp_values.py`, not under src/) are external constant tables (§1, §6);
values are the standard PTP codes, used as distinct integers only. -/
namespace PTP_OPCODE

def OPEN_SESSION : Nat := 0x1002

def CLOSE_SESSION : Nat := 0x1003

def INITIATE_CAPTURE : Nat := 0x100E

def GET_OBJECT : Nat := 0x1009

end PTP_OPCODE

namespace PTP_RESPONSE_CODE

def OK : Nat := 0x2001

def SESSION_ALREADY_OPENED : Nat := 0x201E

end PTP_RESPONSE_CODE

namespace PTP_EVENT_CODE

def OBJECT_ADDED : Nat := 0x4002

def CAPTURE_COMPLETE : Nat := 0x400D

end PTP_EVENT_CODE

/- Modelled from the spec: CHDK extension constants (`chdk_ptp_values.py`,
not under src/) are external constant tables; the vendor operation code and
sub-operation selectors are distinct integers, and the script-status values
are a bitmask with two recognized bits (§3 ScriptStatus). -/
def PTP_OC_CHDK : Nat := 0x9999

namespace CHDKOperations

def Version : Nat := 0

def TempData : Nat := 4

def UploadFile : Nat := 5

def DownloadFile : Nat := 6

def ExecuteScript : Nat := 7

def ScriptStatus : Nat := 8

def ReadScriptMsg : Nat := 10

def WriteScriptMsg : Nat := 11

def GetDisplayData : Nat := 12

end CHDKOperations

namespace CHDKScriptStatus

def NONE : Nat := 0

def RUN : Nat := 1

def MSG : Nat := 2

end CHDKScriptStatus

namespace CHDKResponses

def OK : Nat := 1

end CHDKResponses

namespace CHDKTempData

def CLEAR : Nat := 2

end CHDKTempData

/-- A decoded wire container as it arrives on a channel: the fixed header
fields (kind, code, transaction id) plus the raw payload bytes.
Modelled from the spec (§3, §4.1): container classes live in `typedefs.py`,
not under src/; `camera.py` branches on the kind field read from the header
and then views the payload either as bytes or as packed u32 parameters. -/
structure RawContainer where
  type : Nat
  code : Nat
  transaction_id : Nat
  payload : List Nat
deriving Repr, DecidableEq

/-- Little-endian u32 of four bytes. -/
def u32OfBytes (b0 b1 b2 b3 : Nat) : Nat :=
  b0 % 256 + 256 * (b1 % 256) + 65536 * (b2 % 256) + 16777216 * (b3 % 256)

/-- Parameter view of a payload: a tightly packed sequence of
little-endian u32 values (spec §4.1); trailing bytes that do not fill a
parameter are ignored. -/
def parseParams : List Nat → List Nat
  | b0 :: b1 :: b2 :: b3 :: rest => u32OfBytes b0 b1 b2 b3 :: parseParams rest
  | _ => []

/-- `ParamContainer` from typedefs: header fields plus the payload
interpreted as u32 parameters. -/
structure ParamContainer where
  type : Nat
  code : Nat
  transaction_id : Nat
  params : List Nat
deriving Repr, DecidableEq

/-- `DataContainer` from typedefs: header fields plus the payload as an
opaque byte blob. -/
structure DataContainer where
  type : Nat
  code : Nat
  transaction_id : Nat
  data : List Nat
deriving Repr, DecidableEq

def ParamContainer.ofRaw (r : RawContainer) : ParamContainer :=
  ⟨r.type, r.code, r.transaction_id, parseParams r.payload⟩

def DataContainer.ofRaw (r : RawContainer) : DataContainer :=
  ⟨r.type, r.code, r.transaction_id, r.payload⟩

/-- `recvd_data` in `ptp_transaction` is bound either to a `DataContainer`
(Data kind) or to a `ParamContainer` (Command/Event kind echoed on the
bulk-in channel). -/
inductive RData
  | dataC (d : DataContainer)
  | param (p : ParamContainer)
deriving Repr, DecidableEq

/-- A container sent on the bulk-out channel. -/
inductive Sent
  | cmd (p : ParamContainer)
  | dat (d : DataContainer)
deriving Repr, DecidableEq

/-- The exceptions `camera.py` can raise, as error values. -/
inductive CamErr
  /-- a blocking read on an exhausted channel (the model's rendering of a
  read that never returns) -/
  | channelEmpty
  /-- TypeError raised on an unknown PTP USB container type in the first
  receive of `ptp_transaction` -/
  | unknownContainerType (t : Nat)
  /-- TypeError raised when the second receive of `ptp_transaction` is not
  a Response container -/
  | expectedResponse (t : Nat)
  /-- ValueError raised by `check_event` for a non-event container on the
  interrupt endpoint -/
  | nonEventOnInterrupt (t : Nat)
  /-- ValueError raised by `open_session` for an unacceptable response -/
  | sessionOpenFailed (code : Nat)
  /-- ValueError raised by `check_response` for a non-OK response -/
  | responseNotOK (code : Nat)
  /-- IOError: ObjectAdded event was not received -/
  | objectAddedNotReceived
  /-- IOError: CaptureComplete event was not received -/
  | captureCompleteNotReceived
  /-- PTPError carrying a raw device status code (upload/download checks) -/
  | ptpError (code : Nat)
  /-- PTPError(TRANSACTION_CANCELLED, timeout message) from the
  script-wait loop -/
  | timeoutCancelled
  /-- PTPError(UNDEFINED, message interpolating the raw status) for an
  unrecognized script status -/
  | scriptStatusError (raw : Nat)
  /-- IndexError from subscripting an empty parameter list -/
  | indexError
  /-- AttributeError (e.g. `path.basename(None)`, or `.data` on a
  non-Data value) -/
  | attributeError
  /-- NameError from referencing an undefined name -/
  | nameError (n : String)
  /-- struct.error from unpacking a buffer shorter than the format -/
  | structError
deriving Repr, DecidableEq

/-- `_CameraBase.new_ptp_command` (camera.py lines 113-123): builds a
Command container stamped with the current transaction id and returns it
together with the incremented counter. -/
def new_ptp_command (tid : Nat) (op_code : Nat) (params : List Nat) :
    ParamContainer × Nat :=
  (⟨PTP_CONTAINER_TYPE.COMMAND, op_code, tid, params⟩, tid + 1)

/-- Everything observable about one `ptp_transaction` call: the containers
sent on bulk-out, the transaction counter afterwards, and either the
(response, inbound payload, unconsumed incoming containers) or the raised
error. -/
structure TxnOutcome where
  sent : List Sent
  tidAfter : Nat
  result : Except CamErr (ParamContainer × Option RData × List RawContainer)
deriving Repr

/-- `_CameraBase.ptp_transaction` (camera.py lines 126-181).
The bulk-in channel is `incoming`, one decoded container per chunked
receive.  Note that in the source the second receive (lines 167-176) is
outside the `if receiving:` block: it runs whenever no Response has been
captured, also when `receiving` is false. -/
def ptp_transaction (tid : Nat) (command : Nat) (params : List Nat)
    (tx_data : Option (List Nat)) (receiving : Bool)
    (incoming : List RawContainer) : TxnOutcome :=
  let pr := new_ptp_command tid command params
  let ptp_request := pr.1
  let sent : List Sent :=
    match tx_data with
    | none => [Sent.cmd ptp_request]
    | some d => [Sent.cmd ptp_request,
        Sent.dat ⟨PTP_CONTAINER_TYPE.DATA, ptp_request.code,
          ptp_request.transaction_id, d⟩]
  let firstRecv :
      Except CamErr (Option RData × Option ParamContainer × List RawContainer) :=
    if receiving then
      match incoming with
      | [] => .error .channelEmpty
      | r :: rest =>
        if r.type = PTP_CONTAINER_TYPE.DATA then
          .ok (some (RData.dataC (DataContainer.ofRaw r)), none, rest)
        else if r.type = PTP_CONTAINER_TYPE.RESPONSE then
          .ok (none, some (ParamContainer.ofRaw r), rest)
        else if r.type = PTP_CONTAINER_TYPE.COMMAND ∨
            r.type = PTP_CONTAINER_TYPE.EVENT then
          .ok (some (RData.param (ParamContainer.ofRaw r)), none, rest)
        else
          .error (.unknownContainerType r.type)
    else
      .ok (none, none, incoming)
  let result :
      Except CamErr (ParamContainer × Option RData × List RawContainer) :=
    match firstRecv with
    | .error e => .error e
    | .ok (recvd_data, some recvd_response, rest) =>
      .ok (recvd_response, recvd_data, rest)
    | .ok (recvd_data, none, rest) =>
      match rest with
      | [] => .error .channelEmpty
      | r :: rest2 =>
        if r.type = PTP_CONTAINER_TYPE.RESPONSE then
          .ok (ParamContainer.ofRaw r, recvd_data, rest2)
        else
          .error (.expectedResponse r.type)
  ⟨sent, pr.2, result⟩

/-- The receive phase of `transact` with `expect_inbound_payload = true`,
written from the spec's words (§4.2 steps 3-5): classify the first
container (Response is captured directly and skips the second receive;
Data, Command and Event are captured as the inbound payload; any other
kind is an unexpected-container-kind error), then, if no Response was
captured, perform exactly one more receive which must be a Response. -/
def transact_receive_spec (incoming : List RawContainer) :
    Except CamErr (ParamContainer × Option RData × List RawContainer) :=
  match incoming with
  | [] => .error .channelEmpty
  | r :: rest =>
    if r.type = PTP_CONTAINER_TYPE.RESPONSE then
      .ok (ParamContainer.ofRaw r, none, rest)
    else
      let payload : Except CamErr RData :=
        if r.type = PTP_CONTAINER_TYPE.DATA then
          .ok (RData.dataC (DataContainer.ofRaw r))
        else if r.type = PTP_CONTAINER_TYPE.COMMAND ∨
            r.type = PTP_CONTAINER_TYPE.EVENT then
          .ok (RData.param (ParamContainer.ofRaw r))
        else
          .error (.unknownContainerType r.type)
      match payload with
      | .error e => .error e
      | .ok pl =>
        match rest with
        | [] => .error .channelEmpty
        | r2 :: rest2 =>
          if r2.type = PTP_CONTAINER_TYPE.RESPONSE then
            .ok (ParamContainer.ofRaw r2, some pl, rest2)
          else
            .error (.expectedResponse r2.type)

/-- C1: In a transact exchange with `expect_inbound_payload` true, the
first received container is classified by kind (Data → inbound payload;
Response → final response with no second receive; Command/Event → inbound
payload; other → unexpected-container-kind error), and if no Response was
captured by the first receive, exactly one more receive is performed,
which must decode to a Response or the operation fails with an
expected-response error.  Stated as: the result of `ptp_transaction` with
`receiving = true` coincides with the spec's classification on every
incoming channel. -/
theorem ptp_transaction_receive_classification
    (tid command : Nat) (params : List Nat) (tx_data : Option (List Nat))
    (incoming : List RawContainer) :
    (ptp_transaction tid command params tx_data true incoming).result =
      transact_receive_spec incoming := by
  cases incoming with
  | nil => cases tx_data <;> rfl
  | cons r rest =>
    by_cases hD : r.type = PTP_CONTAINER_TYPE.DATA
    · cases rest with
      | nil =>
        simp [ptp_transaction, transact_receive_spec, hD,
          PTP_CONTAINER_TYPE.COMMAND, PTP_CONTAINER_TYPE.DATA,
          PTP_CONTAINER_TYPE.RESPONSE, PTP_CONTAINER_TYPE.EVENT]
      | cons r2 rest2 =>
        by_cases h2 : r2.type = PTP_CONTAINER_TYPE.RESPONSE <;>
          simp [ptp_transaction, transact_receive_spec, hD, h2,
            PTP_CONTAINER_TYPE.COMMAND, PTP_CONTAINER_TYPE.DATA,
            PTP_CONTAINER_TYPE.RESPONSE, PTP_CONTAINER_TYPE.EVENT]
    · by_cases hR : r.type = PTP_CONTAINER_TYPE.RESPONSE
      · simp [ptp_transaction, transact_receive_spec, hD, hR,
          PTP_CONTAINER_TYPE.COMMAND, PTP_CONTAINER_TYPE.DATA,
          PTP_CONTAINER_TYPE.RESPONSE, PTP_CONTAINER_TYPE.EVENT]
      · by_cases hCE : r.type = PTP_CONTAINER_TYPE.COMMAND ∨
            r.type = PTP_CONTAINER_TYPE.EVENT
        · cases rest with
          | nil =>
            simp [ptp_transaction, transact_receive_spec, hD, hR, hCE]
          | cons r2 rest2 =>
            by_cases h2 : r2.type = PTP_CONTAINER_TYPE.RESPONSE <;>
              simp [ptp_transaction, transact_receive_spec, hD, hR, hCE, h2]
        · simp [ptp_transaction, transact_receive_spec, hD, hR, hCE]

/-- The arguments of one `ptp_transaction` call, with the bulk-in
containers this call will consume. -/
structure Request where
  command : Nat
  params : List Nat
  tx_data : Option (List Nat)
  receiving : Bool
  incoming : List RawContainer
deriving Repr

/-- A sequence of `ptp_transaction` calls on one camera handle, threading
the transaction-id counter exactly as `_CameraBase` does; yields the sent
containers of each call and the final counter. -/
def runTransactions (tid : Nat) : List Request → List (List Sent) × Nat
  | [] => ([], tid)
  | q :: qs =>
    let o := ptp_transaction tid q.command q.params q.tx_data q.receiving
      q.incoming
    let r := runTransactions o.tidAfter qs
    (o.sent :: r.1, r.2)

/-- The transaction id stamped into the Command container of one call's
sent list (every call sends its Command container first). -/
def cmdTid : List Sent → Nat
  | Sent.cmd c :: _ => c.transaction_id
  | _ => 0

/-- Every Data container in one call's sent list carries the same
transaction id as that call's Command container. -/
def dataMatchesCmd (s : List Sent) : Prop :=
  ∀ d : DataContainer, Sent.dat d ∈ s → d.transaction_id = cmdTid s

theorem ptp_transaction_tidAfter (tid command : Nat) (params : List Nat)
    (tx_data : Option (List Nat)) (receiving : Bool)
    (incoming : List RawContainer) :
    (ptp_transaction tid command params tx_data receiving incoming).tidAfter
      = tid + 1 := by
  rfl

theorem ptp_transaction_cmdTid (tid command : Nat) (params : List Nat)
    (tx_data : Option (List Nat)) (receiving : Bool)
    (incoming : List RawContainer) :
    cmdTid (ptp_transaction tid command params tx_data receiving
      incoming).sent = tid := by
  cases tx_data <;> rfl

theorem ptp_transaction_dataMatchesCmd (tid command : Nat)
    (params : List Nat) (tx_data : Option (List Nat)) (receiving : Bool)
    (incoming : List RawContainer) :
    dataMatchesCmd (ptp_transaction tid command params tx_data receiving
      incoming).sent := by
  intro d hd
  cases tx_data with
  | none =>
    cases hd with
    | tail _ h => cases h
  | some b =>
    cases hd with
    | tail _ h =>
      cases h with
      | head => rfl
      | tail _ h2 => cases h2

/-- C2: over any sequence of transact calls on one handle, the id placed
in each Command container is the initial counter plus the call's index
(hence strictly increasing by exactly one per issued command and never
reused), each Data container sent for a request carries the same id as
its Command container, and the counter advances by exactly the number of
calls. -/
theorem runTransactions_transaction_ids (tid : Nat) (qs : List Request) :
    ((runTransactions tid qs).1.map cmdTid
        = (List.range qs.length).map (fun i => tid + i)) ∧
      (∀ s ∈ (runTransactions tid qs).1, dataMatchesCmd s) ∧
      (runTransactions tid qs).2 = tid + qs.length := by
  induction qs generalizing tid with
  | nil => simp [runTransactions]
  | cons q qs ih =>
    obtain ⟨ih1, ih2, ih3⟩ := ih (tid + 1)
    refine ⟨?_, ?_, ?_⟩
    · simp only [runTransactions, List.map_cons, List.length_cons,
        List.range_succ_eq_map, List.map_map, ptp_transaction_tidAfter,
        ptp_transaction_cmdTid]
      refine List.cons_eq_cons.mpr ⟨rfl, ?_⟩
      rw [ih1]
      apply List.map_congr_left
      intro i _
      simp [Function.comp]
      omega
    · intro s hs
      simp only [runTransactions, List.mem_cons,
        ptp_transaction_tidAfter] at hs
      rcases hs with h | h
      · subst h
        exact ptp_transaction_dataMatchesCmd _ _ _ _ _ _
      · exact ih2 s h
    · simp only [runTransactions, ptp_transaction_tidAfter, ih3,
        List.length_cons]
      omega

/-- Witness for C2 at a concrete input: two calls starting from counter 5,
the first carrying an outbound payload; the command ids are 5 and 6, and
the Data container of the first call carries id 5. -/
theorem runTransactions_transaction_ids_witness :
    ((runTransactions 5
        [⟨70, [], some [1, 2], false, [⟨3, 0x2001, 5, []⟩]⟩,
         ⟨71, [9], none, false, [⟨3, 0x2001, 6, []⟩]⟩]).1.map cmdTid
      = [5, 6]) ∧
    ((runTransactions 5
        [⟨70, [], some [1, 2], false, [⟨3, 0x2001, 5, []⟩]⟩,
         ⟨71, [9], none, false, [⟨3, 0x2001, 6, []⟩]⟩]).2 = 7) := by
  have h := runTransactions_transaction_ids 5
    [⟨70, [], some [1, 2], false, [⟨3, 0x2001, 5, []⟩]⟩,
     ⟨71, [9], none, false, [⟨3, 0x2001, 6, []⟩]⟩]
  exact ⟨by rw [h.1]; rfl, by rw [h.2.2]; rfl⟩

/-- The observable state of one camera handle: the transaction counter,
the pending bulk-in containers, and the pending interrupt-endpoint
containers. -/
structure CamState where
  tid : Nat
  bulk : List RawContainer
  events : List RawContainer
deriving Repr, DecidableEq

/-- `PTPCamera.check_response` (camera.py lines 266-269): ValueError on a
non-OK response code. -/
def check_response (r : ParamContainer) : Except CamErr Unit :=
  if r.code ≠ PTP_RESPONSE_CODE.OK then .error (.responseNotOK r.code)
  else .ok ()

/-- `_CameraBase.check_event` (camera.py lines 89-96): one read on the
interrupt endpoint; a non-Event container raises ValueError. -/
def check_event (s : CamState) : Except CamErr (ParamContainer × CamState) :=
  match s.events with
  | [] => .error .channelEmpty
  | r :: rest =>
    if r.type ≠ PTP_CONTAINER_TYPE.EVENT then
      .error (.nonEventOnInterrupt r.type)
    else
      .ok (ParamContainer.ofRaw r, ⟨s.tid, s.bulk, rest⟩)

/-- `PTPCamera.open_session` (camera.py lines 205-209): OpenSession with
the session id as sole parameter; OK and SessionAlreadyOpened are both
accepted. -/
def open_session (sid : Nat) (s : CamState) : Except CamErr CamState :=
  let o := ptp_transaction s.tid PTP_OPCODE.OPEN_SESSION [sid] none true
    s.bulk
  match o.result with
  | .error e => .error e
  | .ok (response, _, rest) =>
    if response.code ≠ PTP_RESPONSE_CODE.OK ∧
        response.code ≠ PTP_RESPONSE_CODE.SESSION_ALREADY_OPENED then
      .error (.sessionOpenFailed response.code)
    else
      .ok ⟨o.tidAfter, rest, s.events⟩

/-- `PTPCamera.initiate_capture` (camera.py lines 217-220): InitiateCapture
with two zero parameters, response checked. -/
def initiate_capture (s : CamState) :
    Except CamErr (ParamContainer × Option RData × CamState) :=
  let o := ptp_transaction s.tid PTP_OPCODE.INITIATE_CAPTURE [0, 0] none
    true s.bulk
  match o.result with
  | .error e => .error e
  | .ok (response, rdata, rest) =>
    match check_response response with
    | .error e => .error e
    | .ok _ => .ok (response, rdata, ⟨o.tidAfter, rest, s.events⟩)

/-- `PTPCamera.capture` (camera.py lines 223-251): open the session,
initiate capture, read exactly two events, classify them by event code in
arrival order via the fold over `[event1, event2]`, fail if either class
is missing, and return parameter 0 of the ObjectAdded event. -/
def capture (sid : Nat) (s : CamState) : Except CamErr (Nat × CamState) :=
  match open_session sid s with
  | .error e => .error e
  | .ok s1 =>
    match initiate_capture s1 with
    | .error e => .error e
    | .ok (response, _, s2) =>
      match check_response response with
      | .error e => .error e
      | .ok _ =>
        match check_event s2 with
        | .error e => .error e
        | .ok (event1, s3) =>
          match check_event s3 with
          | .error e => .error e
          | .ok (event2, s4) =>
            let folded := List.foldl
              (fun (acc : Option ParamContainer × Option ParamContainer) e =>
                if e.code = PTP_EVENT_CODE.OBJECT_ADDED then (some e, acc.2)
                else if e.code = PTP_EVENT_CODE.CAPTURE_COMPLETE then
                  (acc.1, some e)
                else acc)
              (none, none) [event1, event2]
            match folded.1 with
            | none => .error .objectAddedNotReceived
            | some obj_added_event =>
              match folded.2 with
              | none => .error .captureCompleteNotReceived
              | some _ =>
                match obj_added_event.params with
                | [] => .error .indexError
                | h :: _ => .ok (h, s4)

/-- C3: with the two transactions answered by OK responses, `capture`
reads exactly two events (the final state drops exactly two entries from
the event channel) and returns parameter 0 of the ObjectAdded event for
either arrival order of ObjectAdded and CaptureComplete; if neither event
is ObjectAdded it fails with the missing-ObjectAdded error, and if an
ObjectAdded is present but neither event is CaptureComplete it fails with
the missing-CaptureComplete error (in particular when one class arrives
twice). -/
theorem capture_two_events_order_independent (sid tid : Nat)
    (r1 r2 : RawContainer) (b : List RawContainer)
    (e1 e2 : RawContainer) (es : List RawContainer)
    (hr1t : r1.type = PTP_CONTAINER_TYPE.RESPONSE)
    (hr1c : r1.code = PTP_RESPONSE_CODE.OK)
    (hr2t : r2.type = PTP_CONTAINER_TYPE.RESPONSE)
    (hr2c : r2.code = PTP_RESPONSE_CODE.OK)
    (he1 : e1.type = PTP_CONTAINER_TYPE.EVENT)
    (he2 : e2.type = PTP_CONTAINER_TYPE.EVENT) :
    (∀ h t, e1.code = PTP_EVENT_CODE.OBJECT_ADDED →
      e2.code = PTP_EVENT_CODE.CAPTURE_COMPLETE →
      parseParams e1.payload = h :: t →
      capture sid ⟨tid, r1 :: r2 :: b, e1 :: e2 :: es⟩
        = .ok (h, ⟨tid + 2, b, es⟩)) ∧
    (∀ h t, e1.code = PTP_EVENT_CODE.CAPTURE_COMPLETE →
      e2.code = PTP_EVENT_CODE.OBJECT_ADDED →
      parseParams e2.payload = h :: t →
      capture sid ⟨tid, r1 :: r2 :: b, e1 :: e2 :: es⟩
        = .ok (h, ⟨tid + 2, b, es⟩)) ∧
    (e1.code ≠ PTP_EVENT_CODE.OBJECT_ADDED →
      e2.code ≠ PTP_EVENT_CODE.OBJECT_ADDED →
      capture sid ⟨tid, r1 :: r2 :: b, e1 :: e2 :: es⟩
        = .error .objectAddedNotReceived) ∧
    ((e1.code = PTP_EVENT_CODE.OBJECT_ADDED ∨
        e2.code = PTP_EVENT_CODE.OBJECT_ADDED) →
      e1.code ≠ PTP_EVENT_CODE.CAPTURE_COMPLETE →
      e2.code ≠ PTP_EVENT_CODE.CAPTURE_COMPLETE →
      capture sid ⟨tid, r1 :: r2 :: b, e1 :: e2 :: es⟩
        = .error .captureCompleteNotReceived) := by
  refine ⟨?_, ?_, ?_, ?_⟩
  · intro h t h1 h2 hp
    simp only [PTP_EVENT_CODE.OBJECT_ADDED] at h1
    simp only [PTP_EVENT_CODE.CAPTURE_COMPLETE] at h2
    simp [capture, open_session, initiate_capture, check_response,
      check_event, ptp_transaction, new_ptp_command, ParamContainer.ofRaw,
      hr1t, hr1c, hr2t, hr2c, he1, he2, h1, h2, hp,
      PTP_CONTAINER_TYPE.COMMAND, PTP_CONTAINER_TYPE.DATA,
      PTP_CONTAINER_TYPE.RESPONSE, PTP_CONTAINER_TYPE.EVENT,
      PTP_RESPONSE_CODE.OK, PTP_RESPONSE_CODE.SESSION_ALREADY_OPENED,
      PTP_EVENT_CODE.OBJECT_ADDED, PTP_EVENT_CODE.CAPTURE_COMPLETE]
  · intro h t h1 h2 hp
    simp only [PTP_EVENT_CODE.CAPTURE_COMPLETE] at h1
    simp only [PTP_EVENT_CODE.OBJECT_ADDED] at h2
    simp [capture, open_session, initiate_capture, check_response,
      check_event, ptp_transaction, new_ptp_command, ParamContainer.ofRaw,
      hr1t, hr1c, hr2t, hr2c, he1, he2, h1, h2, hp,
      PTP_CONTAINER_TYPE.COMMAND, PTP_CONTAINER_TYPE.DATA,
      PTP_CONTAINER_TYPE.RESPONSE, PTP_CONTAINER_TYPE.EVENT,
      PTP_RESPONSE_CODE.OK, PTP_RESPONSE_CODE.SESSION_ALREADY_OPENED,
      PTP_EVENT_CODE.OBJECT_ADDED, PTP_EVENT_CODE.CAPTURE_COMPLETE]
  · intro h1 h2
    simp only [PTP_EVENT_CODE.OBJECT_ADDED] at h1 h2
    by_cases hc1 : e1.code = 16397 <;> by_cases hc2 : e2.code = 16397 <;>
      simp [capture, open_session, initiate_capture, check_response,
        check_event, ptp_transaction, new_ptp_command,
        ParamContainer.ofRaw, hr1t, hr1c, hr2t, hr2c, he1, he2, h1, h2,
        hc1, hc2, PTP_CONTAINER_TYPE.COMMAND, PTP_CONTAINER_TYPE.DATA,
        PTP_CONTAINER_TYPE.RESPONSE, PTP_CONTAINER_TYPE.EVENT,
        PTP_RESPONSE_CODE.OK, PTP_RESPONSE_CODE.SESSION_ALREADY_OPENED,
        PTP_EVENT_CODE.OBJECT_ADDED, PTP_EVENT_CODE.CAPTURE_COMPLETE]
  · intro hOA hc1 hc2
    simp only [PTP_EVENT_CODE.OBJECT_ADDED] at hOA
    simp only [PTP_EVENT_CODE.CAPTURE_COMPLETE] at hc1 hc2
    rcases hOA with h1 | h2
    · by_cases ho2 : e2.code = 16386 <;>
        simp [capture, open_session, initiate_capture, check_response,
          check_event, ptp_transaction, new_ptp_command,
          ParamContainer.ofRaw, hr1t, hr1c, hr2t, hr2c, he1, he2, h1,
          ho2, hc1, hc2, PTP_CONTAINER_TYPE.COMMAND,
          PTP_CONTAINER_TYPE.DATA, PTP_CONTAINER_TYPE.RESPONSE,
          PTP_CONTAINER_TYPE.EVENT, PTP_RESPONSE_CODE.OK,
          PTP_RESPONSE_CODE.SESSION_ALREADY_OPENED,
          PTP_EVENT_CODE.OBJECT_ADDED, PTP_EVENT_CODE.CAPTURE_COMPLETE]
    · by_cases ho1 : e1.code = 16386 <;>
        simp [capture, open_session, initiate_capture, check_response,
          check_event, ptp_transaction, new_ptp_command,
          ParamContainer.ofRaw, hr1t, hr1c, hr2t, hr2c, he1, he2, h2,
          ho1, hc1, hc2, PTP_CONTAINER_TYPE.COMMAND,
          PTP_CONTAINER_TYPE.DATA, PTP_CONTAINER_TYPE.RESPONSE,
          PTP_CONTAINER_TYPE.EVENT, PTP_RESPONSE_CODE.OK,
          PTP_RESPONSE_CODE.SESSION_ALREADY_OPENED,
          PTP_EVENT_CODE.OBJECT_ADDED, PTP_EVENT_CODE.CAPTURE_COMPLETE]

/-- Witness for C3 at a concrete input: CaptureComplete arrives first,
ObjectAdded second carrying handle 42 as parameter 0; `capture` still
returns 42 and consumes exactly two events. -/
theorem capture_two_events_witness :
    capture 1 ⟨0,
        [⟨3, 0x2001, 0, []⟩, ⟨3, 0x2001, 1, []⟩],
        [⟨4, 0x400D, 1, []⟩, ⟨4, 0x4002, 1, [42, 0, 0, 0]⟩]⟩
      = .ok (42, ⟨2, [], []⟩) := by
  have h := (capture_two_events_order_independent 1 0
    ⟨3, 0x2001, 0, []⟩ ⟨3, 0x2001, 1, []⟩ []
    ⟨4, 0x400D, 1, []⟩ ⟨4, 0x4002, 1, [42, 0, 0, 0]⟩ []
    rfl rfl rfl rfl rfl rfl).2.1 42 []
  exact h rfl rfl rfl

/-- One entry of the accumulated message list: `read_script_message`
returns the pair (response container, inbound payload). -/
abbrev ScriptMessage := ParamContainer × Option RData

/-- `CHDKCamera._wait_for_script_return` (camera.py lines 501-535), with
its two collaborator calls supplied as scripted sequences in the style
the spec prescribes for deterministic testing (§9): `statuses` yields one
value per `check_script_status` poll and `msgs` one entry per
`read_script_message`.  `elapsed` is the wall time since `t_start` in
milliseconds, advanced 50 ms by each sleep; `timeout` is in the same
unit.  The source's branch structure, including its timeout comparison
`timeout > 0 and timeout > (time.time() - t_start)` placed after the
sleep, is kept verbatim. -/
def wait_for_script_return (timeout : Nat) :
    List Nat → List ScriptMessage → Nat → List ScriptMessage →
      Except CamErr (List ScriptMessage)
  | [], _, _, _ => .error .channelEmpty
  | STATUS :: sts, msgs, elapsed, acc =>
    if STATUS &&& CHDKScriptStatus.RUN ≠ 0 then
      let elapsed2 := elapsed + 50
      if timeout > 0 ∧ timeout > elapsed2 then .error .timeoutCancelled
      else wait_for_script_return timeout sts msgs elapsed2 acc
    else if STATUS &&& CHDKScriptStatus.MSG ≠ 0 then
      match msgs with
      | [] => .error .channelEmpty
      | m :: ms =>
        wait_for_script_return timeout sts ms elapsed (acc ++ [m])
    else if STATUS = CHDKScriptStatus.NONE then .ok acc
    else .error (.scriptStatusError STATUS)

/-- C4: with no deadline configured (timeout 0), the scripted status
sequence [RUNNING, MESSAGE_PENDING, MESSAGE_PENDING, 0] makes the wait
loop read one message per MESSAGE_PENDING tick and return exactly the two
accumulated messages without error; and any nonzero status with neither
the RUNNING nor the MESSAGE_PENDING bit set fails with a script-status
error carrying the raw value. -/
theorem wait_for_script_return_scripted :
    (∀ (m1 m2 : ScriptMessage) (ms : List ScriptMessage),
      wait_for_script_return 0
        [CHDKScriptStatus.RUN, CHDKScriptStatus.MSG, CHDKScriptStatus.MSG,
          CHDKScriptStatus.NONE] (m1 :: m2 :: ms) 0 []
        = .ok [m1, m2]) ∧
    (∀ (timeout STATUS : Nat) (sts : List Nat)
      (msgs : List ScriptMessage) (elapsed : Nat)
      (acc : List ScriptMessage),
      STATUS ≠ 0 → STATUS &&& CHDKScriptStatus.RUN = 0 →
      STATUS &&& CHDKScriptStatus.MSG = 0 →
      wait_for_script_return timeout (STATUS :: sts) msgs elapsed acc
        = .error (.scriptStatusError STATUS)) := by
  constructor
  · intro m1 m2 ms
    simp [wait_for_script_return, CHDKScriptStatus.RUN,
      CHDKScriptStatus.MSG, CHDKScriptStatus.NONE]
  · intro timeout STATUS sts msgs elapsed acc hnz hrun hmsg
    simp only [CHDKScriptStatus.RUN] at hrun
    simp only [CHDKScriptStatus.MSG] at hmsg
    simp [wait_for_script_return, CHDKScriptStatus.RUN,
      CHDKScriptStatus.MSG, CHDKScriptStatus.NONE, hnz, hrun, hmsg]

/-- Witness for C4 at concrete inputs: two concrete messages are returned
in order for the scripted sequence, and the unrecognized status 4 fails
carrying 4. -/
theorem wait_for_script_return_scripted_witness :
    (wait_for_script_return 0
        [CHDKScriptStatus.RUN, CHDKScriptStatus.MSG, CHDKScriptStatus.MSG,
          CHDKScriptStatus.NONE]
        [(⟨3, 0x9999, 7, [5]⟩, none), (⟨3, 0x9999, 8, [6]⟩, none)] 0 []
      = .ok [(⟨3, 0x9999, 7, [5]⟩, none), (⟨3, 0x9999, 8, [6]⟩, none)]) ∧
    (wait_for_script_return 0 [4] [] 0 []
      = .error (.scriptStatusError 4)) :=
  ⟨wait_for_script_return_scripted.1 (⟨3, 0x9999, 7, [5]⟩, none)
      (⟨3, 0x9999, 8, [6]⟩, none) [],
    wait_for_script_return_scripted.2 0 4 [] [] 0 [] (by decide)
      (by decide) (by decide)⟩

/-- C5 evidence: the source's deadline comparison is inverted and placed
after the sleep.  With a 1000 ms deadline and only 50 ms elapsed the loop
raises the timeout error immediately, and with a 40 ms deadline already
exceeded after the first sleep the loop never raises the timeout error
and terminates normally. -/
theorem wait_for_script_return_timeout_inverted :
    (wait_for_script_return 1000 [CHDKScriptStatus.RUN] [] 0 []
      = .error .timeoutCancelled) ∧
    (wait_for_script_return 40
        [CHDKScriptStatus.RUN, CHDKScriptStatus.RUN, CHDKScriptStatus.NONE]
        [] 0 [] = .ok []) := by
  constructor <;> rfl

/-- Everything observable about one CHDK extension operation: the
containers sent across its transactions, the transaction counter
afterwards, and the returned value or raised error. -/
structure ChdkOutcome (α : Type) where
  sent : List Sent
  tidAfter : Nat
  result : Except CamErr α
deriving Repr

/-- `CHDKCamera.download_file` (camera.py lines 423-461): NUL-terminate
the filename, store it in the TempData slot (checking the first response
parameter against OK), issue DownloadFile expecting an inbound payload,
re-run the status check — the source re-reads `tempdata_response`, not
the DownloadFile response, at line 450 — then clear the TempData slot and
return the Data payload's bytes together with the unconsumed bulk-in
containers. -/
def download_file (tid : Nat) (filename : List Nat)
    (bulk : List RawContainer) :
    ChdkOutcome (List Nat × List RawContainer) :=
  let fname := if filename.getLast? = some 0 then filename
    else filename ++ [0]
  let o1 := ptp_transaction tid PTP_OC_CHDK [CHDKOperations.TempData, 0]
    (some fname) false bulk
  match o1.result with
  | .error e => ⟨o1.sent, o1.tidAfter, .error e⟩
  | .ok (tempdata_response, _, bulk1) =>
    match tempdata_response.params with
    | [] => ⟨o1.sent, o1.tidAfter, .error .indexError⟩
    | ret_code :: _ =>
      if ret_code ≠ CHDKResponses.OK then
        ⟨o1.sent, o1.tidAfter, .error (.ptpError ret_code)⟩
      else
        let o2 := ptp_transaction o1.tidAfter PTP_OC_CHDK
          [CHDKOperations.DownloadFile] none true bulk1
        match o2.result with
        | .error e => ⟨o1.sent ++ o2.sent, o2.tidAfter, .error e⟩
        | .ok (_, dlfile_data, bulk2) =>
          -- source line 450 re-binds ret_code from tempdata_response
          if ret_code ≠ CHDKResponses.OK then
            ⟨o1.sent ++ o2.sent, o2.tidAfter, .error (.ptpError ret_code)⟩
          else
            let o3 := ptp_transaction o2.tidAfter PTP_OC_CHDK
              [CHDKOperations.TempData, CHDKTempData.CLEAR] none false
              bulk2
            match o3.result with
            | .error e =>
              ⟨o1.sent ++ o2.sent ++ o3.sent, o3.tidAfter, .error e⟩
            | .ok (_, _, bulk3) =>
              match dlfile_data with
              | some (RData.dataC d) =>
                ⟨o1.sent ++ o2.sent ++ o3.sent, o3.tidAfter,
                  .ok (d.data, bulk3)⟩
              | _ =>
                ⟨o1.sent ++ o2.sent ++ o3.sent, o3.tidAfter,
                  .error .attributeError⟩

/-- C6: with the store step answered OK and the fetch step delivering a
Data container, `download_file` returns exactly that Data payload's bytes
after also issuing the TempData clear command; with a non-OK status at
the store step it fails carrying the raw status code, and neither the
fetch nor the clear transaction is attempted (only the store command and
its Data container are ever sent, the counter advances by one, and no
further incoming container is consumed). -/
theorem download_file_store_fetch_clear (tid : Nat) (fname : List Nat) :
    (∀ (r1 rd rr rc : RawContainer) (b : List RawContainer) (t1 : List Nat),
      r1.type = PTP_CONTAINER_TYPE.RESPONSE →
      parseParams r1.payload = CHDKResponses.OK :: t1 →
      rd.type = PTP_CONTAINER_TYPE.DATA →
      rr.type = PTP_CONTAINER_TYPE.RESPONSE →
      rc.type = PTP_CONTAINER_TYPE.RESPONSE →
      (download_file tid fname (r1 :: rd :: rr :: rc :: b)).result
          = .ok (rd.payload, b) ∧
        (download_file tid fname (r1 :: rd :: rr :: rc :: b)).sent
          = [Sent.cmd ⟨PTP_CONTAINER_TYPE.COMMAND, PTP_OC_CHDK, tid,
              [CHDKOperations.TempData, 0]⟩,
            Sent.dat ⟨PTP_CONTAINER_TYPE.DATA, PTP_OC_CHDK, tid,
              if fname.getLast? = some 0 then fname else fname ++ [0]⟩,
            Sent.cmd ⟨PTP_CONTAINER_TYPE.COMMAND, PTP_OC_CHDK, tid + 1,
              [CHDKOperations.DownloadFile]⟩,
            Sent.cmd ⟨PTP_CONTAINER_TYPE.COMMAND, PTP_OC_CHDK, tid + 2,
              [CHDKOperations.TempData, CHDKTempData.CLEAR]⟩]) ∧
    (∀ (r1 : RawContainer) (b : List RawContainer) (c : Nat)
      (t1 : List Nat),
      r1.type = PTP_CONTAINER_TYPE.RESPONSE →
      parseParams r1.payload = c :: t1 →
      c ≠ CHDKResponses.OK →
      (download_file tid fname (r1 :: b)).result = .error (.ptpError c) ∧
        (download_file tid fname (r1 :: b)).sent
          = [Sent.cmd ⟨PTP_CONTAINER_TYPE.COMMAND, PTP_OC_CHDK, tid,
              [CHDKOperations.TempData, 0]⟩,
            Sent.dat ⟨PTP_CONTAINER_TYPE.DATA, PTP_OC_CHDK, tid,
              if fname.getLast? = some 0 then fname else fname ++ [0]⟩] ∧
        (download_file tid fname (r1 :: b)).tidAfter = tid + 1) := by
  constructor
  · intro r1 rd rr rc b t1 h1t h1p hdt hrt hct
    refine ⟨?_, ?_⟩ <;>
      simp [download_file, ptp_transaction, new_ptp_command,
        ParamContainer.ofRaw, DataContainer.ofRaw, h1t, h1p, hdt, hrt,
        hct, PTP_CONTAINER_TYPE.COMMAND, PTP_CONTAINER_TYPE.DATA,
        PTP_CONTAINER_TYPE.RESPONSE, PTP_CONTAINER_TYPE.EVENT,
        CHDKResponses.OK]
  · intro r1 b c t1 h1t h1p hc
    simp only [CHDKResponses.OK] at hc
    refine ⟨?_, ?_, ?_⟩ <;>
      simp [download_file, ptp_transaction, new_ptp_command,
        ParamContainer.ofRaw, h1t, h1p, hc, PTP_CONTAINER_TYPE.COMMAND,
        PTP_CONTAINER_TYPE.DATA, PTP_CONTAINER_TYPE.RESPONSE,
        PTP_CONTAINER_TYPE.EVENT, CHDKResponses.OK]

/-- Witness for C6 at concrete inputs: a store response with status OK, a
Data container carrying bytes [9, 9], its response, and the clear-step
response yield exactly [9, 9]; a store response with status 3 aborts with
that raw code after one transaction. -/
theorem download_file_store_fetch_clear_witness :
    ((download_file 0 [102, 0]
        [⟨3, 0x2001, 0, [1, 0, 0, 0]⟩, ⟨2, 0x9999, 1, [9, 9]⟩,
         ⟨3, 0x2001, 1, [1, 0, 0, 0]⟩, ⟨3, 0x2001, 2, []⟩]).result
      = .ok ([9, 9], [])) ∧
    ((download_file 0 [102, 0] [⟨3, 0x2001, 0, [3, 0, 0, 0]⟩]).result
      = .error (.ptpError 3)) := by
  have ha := (download_file_store_fetch_clear 0 [102, 0]).1
    ⟨3, 0x2001, 0, [1, 0, 0, 0]⟩ ⟨2, 0x9999, 1, [9, 9]⟩
    ⟨3, 0x2001, 1, [1, 0, 0, 0]⟩ ⟨3, 0x2001, 2, []⟩ [] []
    rfl (by decide) rfl rfl rfl
  have hb := (download_file_store_fetch_clear 0 [102, 0]).2
    ⟨3, 0x2001, 0, [3, 0, 0, 0]⟩ [] 3 [] rfl (by decide) (by decide)
  exact ⟨ha.1, hb.1⟩

/-- C7 evidence: the fetch step's own status is never checked — line 450
re-reads the store response — so a non-OK DownloadFile status (here 2,
with the store status OK) is ignored and the payload bytes are returned
instead of a DeviceError being raised. -/
theorem download_file_ignores_fetch_status :
    (download_file 0 [102, 0]
        [⟨3, 0x2001, 0, [1, 0, 0, 0]⟩, ⟨2, 0x9999, 1, [9, 9]⟩,
         ⟨3, 0x2001, 1, [2, 0, 0, 0]⟩, ⟨3, 0x2001, 2, []⟩]).result
      = .ok ([9, 9], []) := by
  rfl

/-- Little-endian u32 encoding of a length field, as struct.pack with the
little-endian u32 format lays it out. -/
def u32le (n : Nat) : List Nat :=
  [n % 256, n / 256 % 256, n / 65536 % 256, n / 16777216 % 256]

/-- `CHDKCamera.__pack_file_for_upload` (camera.py lines 378-400): meant
to build `[u32 filename_length][NUL-terminated remote filename][file
bytes]`.  When `remote_filename` is omitted the source computes
`path.basename(remote_filename)` — the base name of the value that is
known to be None — which raises before any name is produced.  With a
name given, line 393 packs with the c-repeat format built from
`filename_len`: that format demands `filename_len` separate one-character
items but receives the whole name as a single item, so it raises
struct.error unless the NUL-terminated name has length exactly 1; and
line 398 then packs the file bytes with the B-repeat format while
unpacking the contents string into one-character strings rather than the
integers B requires, raising struct.error for any nonempty file. -/
def pack_file_for_upload (contents : List Nat)
    (remote_filename : Option (List Nat)) : Except CamErr (List Nat) :=
  match remote_filename with
  | none => .error .attributeError
  | some rf =>
    let rf2 := if rf.getLast? = some 0 then rf else rf ++ [0]
    let filename_len := rf2.length
    if filename_len ≠ 1 then .error .structError
    else if contents.length ≠ 0 then .error .structError
    else .ok (u32le filename_len ++ rf2 ++ contents)

/-- C8 evidence: with the remote filename omitted, the packing step fails
on `path.basename(None)` instead of defaulting to the base name of the
local path, so no upload payload is ever built. -/
theorem pack_file_for_upload_default_name_crashes :
    pack_file_for_upload [10, 20, 30] none = .error .attributeError := by
  rfl

/-- `CHDKCamera.upload_file` (camera.py lines 402-420): packs the file,
sends it as the outbound Data payload of an UploadFile transaction, then
evaluates `ret_code != CHDKResponses.OK` — but `ret_code` is never
assigned in this method, so completing the transaction always raises
NameError. -/
def upload_file (tid : Nat) (contents : List Nat)
    (remote_filename : Option (List Nat)) (bulk : List RawContainer) :
    ChdkOutcome Unit :=
  match pack_file_for_upload contents remote_filename with
  | .error e => ⟨[], tid, .error e⟩
  | .ok filestr =>
    let o := ptp_transaction tid PTP_OC_CHDK [CHDKOperations.UploadFile]
      (some filestr) false bulk
    match o.result with
    | .error e => ⟨o.sent, o.tidAfter, .error e⟩
    | .ok _ => ⟨o.sent, o.tidAfter, .error (.nameError "ret_code")⟩

/-- C10: `upload_file` never returns successfully and never raises the
intended device-status error: on every input its result is an error and
never the PTPError the status check intends, and whenever the
file-transfer transaction completes — which requires the packing step to
survive its struct.error paths (a NUL-terminated remote name of length
exactly 1 and an empty file) and the response to arrive — the error is
precisely the NameError on the undefined name `ret_code`, regardless of
the response the device sent. -/
theorem upload_file_ret_code_undefined (tid : Nat) (contents : List Nat)
    (remote_filename : Option (List Nat)) (bulk : List RawContainer) :
    ((upload_file tid contents remote_filename bulk).result ≠ .ok ()) ∧
    (∀ c, (upload_file tid contents remote_filename bulk).result
      ≠ .error (.ptpError c)) ∧
    (∀ (name : List Nat) (r : RawContainer) (rest : List RawContainer),
      remote_filename = some name → bulk = r :: rest →
      r.type = PTP_CONTAINER_TYPE.RESPONSE →
      (if name.getLast? = some 0 then name else name ++ [0]).length = 1 →
      contents = [] →
      (upload_file tid contents remote_filename bulk).result
        = .error (.nameError "ret_code")) := by
  refine ⟨?_, ?_, ?_⟩
  · cases remote_filename with
    | none => simp [upload_file, pack_file_for_upload]
    | some name =>
      by_cases h1 :
          (if name.getLast? = some 0 then name else name ++ [0]).length = 1
      · by_cases h2 : contents.length = 0
        · cases bulk with
          | nil =>
            simp [upload_file, pack_file_for_upload, ptp_transaction,
              h1, h2]
          | cons r rest =>
            by_cases hr : r.type = PTP_CONTAINER_TYPE.RESPONSE <;>
              simp [upload_file, pack_file_for_upload, ptp_transaction,
                h1, h2, hr]
        · simp [upload_file, pack_file_for_upload, h1, h2]
      · simp [upload_file, pack_file_for_upload, h1]
  · intro c
    cases remote_filename with
    | none => simp [upload_file, pack_file_for_upload]
    | some name =>
      by_cases h1 :
          (if name.getLast? = some 0 then name else name ++ [0]).length = 1
      · by_cases h2 : contents.length = 0
        · cases bulk with
          | nil =>
            simp [upload_file, pack_file_for_upload, ptp_transaction,
              h1, h2]
          | cons r rest =>
            by_cases hr : r.type = PTP_CONTAINER_TYPE.RESPONSE <;>
              simp [upload_file, pack_file_for_upload, ptp_transaction,
                h1, h2, hr]
        · simp [upload_file, pack_file_for_upload, h1, h2]
      · simp [upload_file, pack_file_for_upload, h1]
  · intro name r rest hrf hbulk hr hlen1 hcon
    subst hrf
    subst hbulk
    subst hcon
    simp [upload_file, pack_file_for_upload, ptp_transaction, hr, hlen1]

/-- Witness for C10 at a concrete input: with the one-byte NUL remote
name and an empty file — the one shape the packing step survives — and
the response arriving, `upload_file` fails with the NameError on
`ret_code`. -/
theorem upload_file_ret_code_undefined_witness :
    (upload_file 0 [] (some [0]) [⟨3, 0x2001, 0, []⟩]).result
      = .error (.nameError "ret_code") :=
  (upload_file_ret_code_undefined 0 [] (some [0])
    [⟨3, 0x2001, 0, []⟩]).2.2 [0] ⟨3, 0x2001, 0, []⟩ [] rfl rfl rfl
    (by decide) rfl

/-- `_CameraBase._bulk_read` (camera.py lines 85-86) over the pending
bulk-in byte stream: a read of `size` bytes returns up to `size` bytes
and leaves the rest pending. -/
def bulk_read (pending : List Nat) (size : Nat) : List Nat × List Nat :=
  (pending.take size, pending.drop size)

/-- The struct.unpack of the first four bytes as a little-endian u32 (callers guard the length). -/
def unpack_u32le : List Nat → Nat
  | b0 :: b1 :: b2 :: b3 :: _ => u32OfBytes b0 b1 b2 b3
  | _ => 0

/-- `_CameraBase.recv_ptp_message` (camera.py lines 103-111): read one
512-byte chunk, take the declared total length from the first four bytes,
and read the remaining `msg_len - 512` bytes in one further read if that
is positive.  Returns the reassembled buffer, the number of reads
performed, and the bytes still pending. -/
def recv_ptp_message (pending : List Nat) :
    Except CamErr (List Nat × Nat × List Nat) :=
  let first := bulk_read pending 512
  let buf := first.1
  if buf.length < 4 then .error .structError
  else
    let msg_len := unpack_u32le buf
    let bytes_left : Int := (msg_len : Int) - 512
    if 0 < bytes_left then
      let second := bulk_read first.2 bytes_left.toNat
      .ok (buf ++ second.1, 2, second.2)
    else
      .ok (buf, 1, first.2)

theorem unpack_u32le_take (l : List Nat) (m : Nat) :
    unpack_u32le (l.take (m + 4)) = unpack_u32le l := by
  match l with
  | [] => simp [unpack_u32le]
  | [a] => simp [List.take_succ_cons, unpack_u32le]
  | [a, b] => simp [List.take_succ_cons, unpack_u32le]
  | [a, b, c] => simp [List.take_succ_cons, unpack_u32le]
  | a :: b :: c :: d :: rest =>
    simp [List.take_succ_cons, unpack_u32le]

/-- C9: when the declared total length (read from the first four bytes)
equals the number of pending bytes, the chunked receive reassembles a
buffer that is exactly the declared length: one read when the declared
length fits in the 512-byte chunk, exactly one additional read otherwise,
with nothing read beyond the declared length. -/
theorem recv_ptp_message_reassembles (pending : List Nat)
    (hlen : 4 ≤ pending.length)
    (hdecl : unpack_u32le pending = pending.length) :
    recv_ptp_message pending
      = .ok (pending, if 512 < pending.length then 2 else 1, []) := by
  have htake : unpack_u32le (pending.take 512) = unpack_u32le pending :=
    unpack_u32le_take pending 508
  have hbuflen : (pending.take 512).length = min 512 pending.length := by
    simp
  by_cases hsize : pending.length ≤ 512
  · have htake_all : pending.take 512 = pending :=
      List.take_of_length_le hsize
    have hdrop_all : pending.drop 512 = [] :=
      List.drop_eq_nil_of_le hsize
    have h4 : ¬ pending.length < 4 := by omega
    have h512 : ¬ 512 < pending.length := by omega
    have hnot : ¬ (0 : Int) < (pending.length : Int) - 512 := by omega
    simp [recv_ptp_message, bulk_read, htake_all, hdrop_all, hdecl, h4,
      h512, hnot]
  · have hlen2 : 512 < pending.length := by omega
    have hpos : (0 : Int) < (unpack_u32le (pending.take 512) : Int) - 512 := by
      rw [htake, hdecl]
      omega
    have hge : ¬ (pending.take 512).length < 4 := by
      rw [hbuflen]
      omega
    have htoNat : ((unpack_u32le (pending.take 512) : Int) - 512).toNat
        = pending.length - 512 := by
      rw [htake, hdecl]
      omega
    have hdroplen : (pending.drop 512).length = pending.length - 512 := by
      simp
    have htake2 : (pending.drop 512).take (pending.length - 512)
        = pending.drop 512 := by
      apply List.take_of_length_le
      omega
    have hdrop2 : (pending.drop 512).drop (pending.length - 512) = [] := by
      apply List.drop_eq_nil_of_le
      omega
    simp only [recv_ptp_message, bulk_read, hge, if_false, hpos, if_true,
      htoNat, htake2, hdrop2, List.take_append_drop]
    simp [hlen2]

set_option maxRecDepth 8192 in
/-- Witness for C9 at a concrete input: a 600-byte stream whose header
declares length 600 is reassembled whole in exactly two reads. -/
theorem recv_ptp_message_reassembles_witness :
    recv_ptp_message ([88, 2, 0, 0] ++ List.replicate 596 7)
      = .ok ([88, 2, 0, 0] ++ List.replicate 596 7, 2, []) := by
  have h1 : 4 ≤ ([88, 2, 0, 0] ++ List.replicate 596 7).length := by
    simp only [List.length_append, List.length_replicate,
      List.length_cons, List.length_nil]
    omega
  have h2 : unpack_u32le ([88, 2, 0, 0] ++ List.replicate 596 7)
      = ([88, 2, 0, 0] ++ List.replicate 596 7).length := by
    rfl
  have h := recv_ptp_message_reassembles
    ([88, 2, 0, 0] ++ List.replicate 596 7) h1 h2
  rw [h]
  rfl

end Ptp2
